import Mathlib

set_option linter.unusedVariables false

/-!
Shallow embedding of src/ingest.py (customer-data ingestion job).

The two core functions are modelled faithfully:

- fetch_customer_data: the bounded-retry page fetcher.  The network is
  abstracted as a stream of per-request events (an HTTP status code with a
  parsed body, a timeout, or an unclassified exception).  The while-loop is
  run on explicit fuel; a run records the returned Python value (if the
  loop returned within the fuel), the sleep durations in order, the number
  of HTTP requests made, and the final value of the attempt counter.

- write_customers_to_csv: the ingestion driver.  Authentication results
  and fetch-call results are abstracted as oracles indexed by call number;
  the driver's trace records every fetch call with the token it was made
  with, every row written, and the page payloads credited as successful.

The Python return value of the fetcher is one of (True, json),
(False, "TOKEN_EXPIRED"), (False, None); this is modelled by Bool x PyValue.
-/

/-- A customer record as parsed from JSON: each of the seven fields may be
absent (record.get returns None-like absence, modelled by Option). -/
structure Record where
  id : Option String
  uuid : Option String
  name : Option String
  email : Option String
  status : Option String
  signup_date : Option String
  ltv : Option String
deriving DecidableEq, Repr

/-- A CSV row: every field filled in, absent record fields defaulted to "". -/
structure Row where
  id : String
  uuid : String
  name : String
  email : String
  status : String
  signup_date : String
  ltv : String
deriving DecidableEq, Repr

/-- The row dict built in the body of the writer loops in
write_customers_to_csv: record.get(field, "") for each of the seven fields. -/
def toRow (r : Record) : Row :=
  { id := r.id.getD ""
    uuid := r.uuid.getD ""
    name := r.name.getD ""
    email := r.email.getD ""
    status := r.status.getD ""
    signup_date := r.signup_date.getD ""
    ltv := r.ltv.getD "" }

/-- The metadata object of a page response: data["metadata"]["total_pages"]. -/
structure Metadata where
  total_pages : Nat
deriving DecidableEq, Repr

/-- A parsed page response: {"metadata": {...}, "data": [...]}. -/
structure Page where
  metadata : Metadata
  data : List Record
deriving DecidableEq, Repr

/-- A Python value as returned in the second component of
fetch_customer_data's result: a parsed JSON page, a string, or None. -/
inductive PyValue where
  | json (p : Page)
  | str (s : String)
  | none
deriving DecidableEq, Repr

/-- What the environment does on one HTTP request issued by the fetch loop:
a response with a status code (and a body, consulted only on 200), a
requests.exceptions.Timeout, or any other exception. -/
inductive HttpEvent where
  | status (code : Nat) (body : Page)
  | timeout
  | exception
deriving DecidableEq, Repr

/-- Observable outcome of running the fetch loop on a given amount of fuel:
result is some (success, data) if the function returned within the fuel and
none if the loop was still running when the fuel ran out; sleeps lists the
time.sleep durations in order; requests counts the HTTP requests made;
finalAttempt is the value of the attempt counter when the run stopped. -/
structure FetchRun where
  result : Option (Bool × PyValue)
  sleeps : List Nat
  requests : Nat
  finalAttempt : Nat
deriving DecidableEq, Repr

/-- The while-loop of fetch_customer_data.  State: the attempt counter and
the index of the next request into the event stream.  Each iteration first
checks attempt < max_retries; if the check fails the function returns
(False, None) (retries exhausted).  Otherwise one request is made and the
response is dispatched exactly as the if/elif chain of the source:
200 returns (True, json); 429 sleeps 2^attempt + 1 and increments attempt;
500/503 sleep 2^attempt and increment attempt; 403 returns
(False, "TOKEN_EXPIRED") at once; any other status falls through with no
sleep and no increment; a timeout sleeps 2^attempt and increments attempt;
any other exception returns (False, None) at once. -/
def fetchGo (events : Nat → HttpEvent) (max_retries : Int) :
    Nat → Nat → Nat → FetchRun
  | attempt, i, 0 => ⟨Option.none, [], 0, attempt⟩
  | attempt, i, fuel + 1 =>
    if (attempt : Int) < max_retries then
      match events i with
      | HttpEvent.status code body =>
        if code = 200 then
          ⟨some (true, PyValue.json body), [], 1, attempt⟩
        else if code = 429 then
          let r := fetchGo events max_retries (attempt + 1) (i + 1) fuel
          ⟨r.result, (2 ^ attempt + 1) :: r.sleeps, r.requests + 1, r.finalAttempt⟩
        else if code = 500 ∨ code = 503 then
          let r := fetchGo events max_retries (attempt + 1) (i + 1) fuel
          ⟨r.result, (2 ^ attempt) :: r.sleeps, r.requests + 1, r.finalAttempt⟩
        else if code = 403 then
          ⟨some (false, PyValue.str "TOKEN_EXPIRED"), [], 1, attempt⟩
        else
          let r := fetchGo events max_retries attempt (i + 1) fuel
          ⟨r.result, r.sleeps, r.requests + 1, r.finalAttempt⟩
      | HttpEvent.timeout =>
        let r := fetchGo events max_retries (attempt + 1) (i + 1) fuel
        ⟨r.result, (2 ^ attempt) :: r.sleeps, r.requests + 1, r.finalAttempt⟩
      | HttpEvent.exception =>
        ⟨some (false, PyValue.none), [], 1, attempt⟩
    else
      ⟨some (false, PyValue.none), [], 0, attempt⟩

/-- fetch_customer_data(page_number, token, max_retries): builds the request
(page number and token only parametrise the request sent, abstracted into
the event stream) and runs the retry loop from attempt = 0. -/
def fetch_customer_data (page_number : Nat) (token : String)
    (events : Nat → HttpEvent) (max_retries : Int) (fuel : Nat) : FetchRun :=
  fetchGo events max_retries 0 0 fuel

/-- Python truthiness of the value returned by get_new_token(): None and the
empty string are falsy, any other string is truthy. -/
def pyTruthy : Option String → Bool
  | Option.none => false
  | some s => s != ""

/-- The string held by a truthy token value ('' for None; never consulted
when the value is falsy). -/
def tokenStr : Option String → String
  | Option.none => ""
  | some s => s

/-- The final counters dict returned by write_customers_to_csv. -/
structure Summary where
  pages_requested : Nat
  successful_pages : Nat
  failed_pages : Nat
  records_ingested : Nat
deriving DecidableEq, Repr

/-- How a run of write_customers_to_csv ends: crashed is an unhandled
exception escaping the function (e.g. the TypeError raised by
token + get_new_token() when get_new_token() returns None); noRun is the
explicit `return None`; complete is the returned summary dict. -/
inductive RunResult where
  | crashed
  | noRun
  | complete (s : Summary)
deriving DecidableEq, Repr

/-- State carried through the page loop of write_customers_to_csv: the
current token binding, the index of the next fetch call and the next
get_new_token call into their oracles, the four counters, and the
instrumented trace (every fetch call with the token it was made with, the
rows written so far, and the page payloads credited as successful, in
emission order). -/
structure LoopState where
  token : String
  callIdx : Nat
  authIdx : Nat
  page_requested : Nat
  successful_pages : Nat
  failed_pages : Nat
  records_ingested : Nat
  fetchCalls : List (Nat × String)
  rows : List Row
  successPayloads : List Page
deriving DecidableEq, Repr

/-- One fetch_customer_data call made by the driver: reads the next result
from the oracle, advances the call index and records the call with the
token it carried. -/
def doFetch (resp : Nat → Bool × PyValue) (p : Nat) (st : LoopState) :
    (Bool × PyValue) × LoopState :=
  (resp st.callIdx,
   { st with callIdx := st.callIdx + 1,
             fetchCalls := st.fetchCalls ++ [(p, st.token)] })

/-- The `if success:` / `else:` tail of one loop iteration: on success the
page's records are mapped to rows, written, and counted, and the page is
credited as successful; on failure failed_pages is incremented.  Returns
Option.none when success is True but the data is not a parsed page (the
subscription data["data"] would raise, crashing the run). -/
def handleResult (success : Bool) (data : PyValue) (st : LoopState) :
    Option LoopState :=
  if success then
    match data with
    | PyValue.json pg =>
      some { st with rows := st.rows ++ pg.data.map toRow,
                     records_ingested := st.records_ingested + pg.data.length,
                     successful_pages := st.successful_pages + 1,
                     successPayloads := st.successPayloads ++ [pg] }
    | _ => Option.none
  else
    some { st with failed_pages := st.failed_pages + 1 }

/-- How one iteration of the page loop ends: next continues with the next
page number, broke is the `break` statement (the loop exits, the function
still returns its summary), crash is an unhandled exception. -/
inductive IterOut where
  | next (st : LoopState)
  | broke (st : LoopState)
  | crash (st : LoopState)
deriving DecidableEq, Repr

/-- The state carried out of an iteration, whichever way it ended. -/
def IterOut.state : IterOut → LoopState
  | IterOut.next st => st
  | IterOut.broke st => st
  | IterOut.crash st => st

/-- One iteration of the `for page_number in range(2, total_pages + 1):`
loop of write_customers_to_csv.  Increment page_requested, fetch; if the
result is (False, "TOKEN_EXPIRED"), evaluate `token + get_new_token()` —
get_new_token() is called, and if it returns None the addition raises
TypeError (crash); otherwise the concatenation is discarded and token is
left unchanged; then `if not token: break` (checks the unchanged binding),
then the page is fetched once more and the shared success/failure tail
runs. -/
def pageIter (auth : Nat → Option String) (resp : Nat → Bool × PyValue)
    (p : Nat) (st : LoopState) : IterOut :=
  let st1 := { st with page_requested := st.page_requested + 1 }
  let fr1 := doFetch resp p st1
  if fr1.1.1 = false ∧ fr1.1.2 = PyValue.str "TOKEN_EXPIRED" then
    let st3 := { fr1.2 with authIdx := fr1.2.authIdx + 1 }
    match auth fr1.2.authIdx with
    | Option.none => IterOut.crash st3
    | some _ =>
      if st3.token = "" then IterOut.broke st3
      else
        let fr2 := doFetch resp p st3
        match handleResult fr2.1.1 fr2.1.2 fr2.2 with
        | Option.none => IterOut.crash fr2.2
        | some st5 => IterOut.next st5
  else
    match handleResult fr1.1.1 fr1.1.2 fr1.2 with
    | Option.none => IterOut.crash fr1.2
    | some st3 => IterOut.next st3

/-- The page loop of write_customers_to_csv over the listed page numbers.
Returns the state at loop exit and whether the run crashed. -/
def pageLoop (auth : Nat → Option String) (resp : Nat → Bool × PyValue) :
    List Nat → LoopState → LoopState × Bool
  | [], st => (st, false)
  | p :: rest, st =>
    match pageIter auth resp p st with
    | IterOut.next st2 => pageLoop auth resp rest st2
    | IterOut.broke st2 => (st2, false)
    | IterOut.crash st2 => (st2, true)

/-- Observable behaviour of one run of write_customers_to_csv: how it ended,
how many get_new_token calls it made, every fetch call with the token it
carried, every data row written to the CSV (header aside), and the page
payloads credited as successful, in emission order. -/
structure DriverTrace where
  result : RunResult
  authCalls : Nat
  fetchCalls : List (Nat × String)
  rows : List Row
  successPayloads : List Page
deriving DecidableEq, Repr

/-- The driver state right after page 1 succeeded with payload pg: page 1's
records written and counted, counters initialised, one fetch call made with
the initial token, and get_new_token called once so far. -/
def initState (token : String) (pg : Page) : LoopState :=
  { token := token, callIdx := 1, authIdx := 1,
    page_requested := 1, successful_pages := 1, failed_pages := 0,
    records_ingested := pg.data.length,
    fetchCalls := [(1, token)], rows := pg.data.map toRow,
    successPayloads := [pg] }

/-- Packaging of the page loop's exit: a crash propagates as such, a normal
exit (loop done or break) returns the counters dict. -/
def mkTrace : LoopState × Bool → DriverTrace
  | (st, true) =>
    ⟨RunResult.crashed, st.authIdx, st.fetchCalls, st.rows, st.successPayloads⟩
  | (st, false) =>
    ⟨RunResult.complete
       ⟨st.page_requested, st.successful_pages, st.failed_pages,
        st.records_ingested⟩,
     st.authIdx, st.fetchCalls, st.rows, st.successPayloads⟩

/-- The part of write_customers_to_csv after page 1 succeeded with payload
pg: run the page loop over range(2, total_pages + 1) and return the
counters dict (or propagate a crash). -/
def runFromFirstPage (auth : Nat → Option String)
    (resp : Nat → Bool × PyValue) (token : String) (pg : Page) : DriverTrace :=
  mkTrace (pageLoop auth resp
    (List.range' 2 (pg.metadata.total_pages - 1)) (initState token pg))

/-- write_customers_to_csv(filename): obtain a token (falsy token: return
None); fetch page 1 (failure: return None; a non-page payload on success
would crash on subscription); read total_pages, write page 1's rows and
initialise the counters; run the page loop over range(2, total_pages + 1);
return the counters dict (or propagate a crash). -/
def write_customers_to_csv (auth : Nat → Option String)
    (resp : Nat → Bool × PyValue) : DriverTrace :=
  let t0 := auth 0
  if pyTruthy t0 = false then
    ⟨RunResult.noRun, 1, [], [], []⟩
  else
    let token := tokenStr t0
    let r1 := resp 0
    if r1.1 = false then
      ⟨RunResult.noRun, 1, [(1, token)], [], []⟩
    else
      match r1.2 with
      | PyValue.json pg => runFromFirstPage auth resp token pg
      | _ => ⟨RunResult.crashed, 1, [(1, token)], [], []⟩

/-- Invariant tying the emission trace together: the rows written are
exactly the rows of the successfully credited pages, in order, and the
records_ingested counter equals the number of rows written. -/
def RowsInv (st : LoopState) : Prop :=
  st.rows = (st.successPayloads.map (fun p => p.data.map toRow)).flatten ∧
  st.records_ingested = st.rows.length

/-- A record with id "A" and every other field absent. -/
def recA : Record :=
  ⟨some "A", Option.none, Option.none, Option.none, Option.none, Option.none,
   Option.none⟩

/-- A record with id "B" and every other field absent. -/
def recB : Record :=
  ⟨some "B", Option.none, Option.none, Option.none, Option.none, Option.none,
   Option.none⟩

/-- Page payload reporting total_pages = 2 and carrying record A. -/
def pg1 : Page := ⟨⟨2⟩, [recA]⟩

/-- Page payload reporting total_pages = 2 and carrying record B. -/
def pg2 : Page := ⟨⟨2⟩, [recB]⟩

/-- Authenticator oracle: initial login yields "T1", every refresh "T2". -/
def authT12 : Nat → Option String := fun i => if i = 0 then some "T1" else some "T2"

/-- Authenticator oracle: initial login yields "T1", every refresh fails. -/
def authNoRefresh : Nat → Option String :=
  fun i => if i = 0 then some "T1" else Option.none

/-- Authenticator oracle that always fails. -/
def authNone : Nat → Option String := fun _ => Option.none

/-- Fetch-result oracle: page 1 succeeds with pg1 (total 2 pages), the
first fetch of page 2 reports an expired token, the retry succeeds with
pg2. -/
def respExp : Nat → Bool × PyValue := fun i =>
  if i = 0 then (true, PyValue.json pg1)
  else if i = 1 then (false, PyValue.str "TOKEN_EXPIRED")
  else (true, PyValue.json pg2)

/-- Event stream: every request is answered with HTTP 429. -/
def ev429c : Nat → HttpEvent := fun _ => HttpEvent.status 429 pg1

/-- Event stream: every request is answered with HTTP 403. -/
def ev403c : Nat → HttpEvent := fun _ => HttpEvent.status 403 pg1

/-- Event stream: every request raises an unclassified exception. -/
def evExcC : Nat → HttpEvent := fun _ => HttpEvent.exception

/-- Event stream: every request is answered with HTTP 418, a status the
retry loop does not recognise. -/
def ev418c : Nat → HttpEvent := fun _ => HttpEvent.status 418 pg1

theorem fetchGo_429 (events : Nat → HttpEvent) (R : Nat)
    (h : ∀ j, ∃ b, events j = HttpEvent.status 429 b) :
    ∀ fuel a i, a ≤ R → R - a < fuel →
      fetchGo events (R : Int) a i fuel =
        ⟨some (false, PyValue.none),
         (List.range' a (R - a)).map (fun t => 2 ^ t + 1), R - a, R⟩ := by
  intro fuel
  induction fuel with
  | zero => intro a i ha hf; omega
  | succ f ih =>
    intro a i ha hf
    obtain ⟨b, hb⟩ := h i
    by_cases hc : a < R
    · have hci : (a : Int) < (R : Int) := by exact_mod_cast hc
      have hrec := ih (a + 1) (i + 1) (by omega) (by omega)
      simp only [fetchGo, hb, if_pos hci]
      norm_num
      rw [hrec]
      have hra : R - a = (R - (a + 1)) + 1 := by omega
      rw [hra, List.range'_succ]
      simp [FetchRun.mk.injEq]
    · have ha' : a = R := by omega
      subst ha'
      have hnc : ¬ ((a : Int) < (a : Int)) := by omega
      simp [fetchGo, hnc, Nat.sub_self]

theorem fetchGo_unrecognized (events : Nat → HttpEvent) (m : Int)
    (h : ∀ j, ∃ c b, events j = HttpEvent.status c b ∧
      c ≠ 200 ∧ c ≠ 429 ∧ c ≠ 500 ∧ c ≠ 503 ∧ c ≠ 403) :
    ∀ (fuel a i : Nat), (a : Int) < m →
      fetchGo events m a i fuel = ⟨Option.none, [], fuel, a⟩ := by
  intro fuel
  induction fuel with
  | zero => intro a i ha; rfl
  | succ f ih =>
    intro a i ha
    obtain ⟨c, b, hb, h1, h2, h3, h4, h5⟩ := h i
    simp [fetchGo, hb, ha, h1, h2, h3, h4, h5]
    rw [ih a (i + 1) ha]
    simp

theorem pageIter_spec (auth : Nat → Option String) (resp : Nat → Bool × PyValue)
    (p : Nat) (st : LoopState) :
    (∀ st2, pageIter auth resp p st = IterOut.next st2 →
       st2.token = st.token ∧ st2.page_requested = st.page_requested + 1 ∧
       st2.successful_pages + st2.failed_pages =
         st.successful_pages + st.failed_pages + 1 ∧
       (RowsInv st → RowsInv st2)) ∧
    (∀ st2, pageIter auth resp p st = IterOut.broke st2 →
       st.token = "" ∧ (RowsInv st → RowsInv st2)) := by
  rcases hr1 : resp st.callIdx with ⟨b1, d1⟩
  simp only [pageIter, doFetch, handleResult, hr1]
  cases b1
  · rcases d1 with pg1 | s1 | _
    · simp [RowsInv]
      exact ⟨by omega, fun h1 h2 => ⟨h1, h2⟩⟩
    · by_cases hs : s1 = "TOKEN_EXPIRED"
      · subst hs
        rcases ha : auth st.authIdx with _ | tok
        · simp [ha]
        · by_cases hT : st.token = ""
          · simp [ha, hT, RowsInv]
            exact fun h1 h2 => ⟨h1, h2⟩
          · rcases hr2 : resp (st.callIdx + 1) with ⟨b2, d2⟩
            cases b2
            · simp [ha, hT, hr2, RowsInv]
              exact ⟨by omega, fun h1 h2 => ⟨h1, h2⟩⟩
            · rcases d2 with pg2 | s2 | _
              · simp [ha, hT, hr2, RowsInv, List.flatten_append]
                refine ⟨by omega, fun h1 h2 => ⟨?_, ?_⟩⟩
                · rw [h1]
                · simp [h1, h2]
              · simp [ha, hT, hr2]
              · simp [ha, hT, hr2]
      · simp [hs, RowsInv]
        exact ⟨by omega, fun h1 h2 => ⟨h1, h2⟩⟩
    · simp [RowsInv]
      exact ⟨by omega, fun h1 h2 => ⟨h1, h2⟩⟩
  · rcases d1 with pg1 | s1 | _
    · simp [RowsInv, List.flatten_append]
      refine ⟨by omega, fun h1 h2 => ⟨?_, ?_⟩⟩
      · rw [h1]
      · simp [h1, h2]
    · simp
    · simp

theorem pageLoop_spec (auth : Nat → Option String) (resp : Nat → Bool × PyValue) :
    ∀ (pages : List Nat) (st : LoopState), st.token ≠ "" →
      (pageLoop auth resp pages st).2 = false →
      ((pageLoop auth resp pages st).1.token = st.token) ∧
      (st.page_requested = st.successful_pages + st.failed_pages →
        (pageLoop auth resp pages st).1.page_requested =
          (pageLoop auth resp pages st).1.successful_pages +
            (pageLoop auth resp pages st).1.failed_pages) ∧
      (RowsInv st → RowsInv (pageLoop auth resp pages st).1) := by
  intro pages
  induction pages with
  | nil =>
    intro st ht hc
    exact ⟨rfl, fun h => h, fun h => h⟩
  | cons p rest ih =>
    intro st ht hc
    rcases hit : pageIter auth resp p st with st2 | st2 | st2
    · have hspec := (pageIter_spec auth resp p st).1 st2 hit
      have hloop : pageLoop auth resp (p :: rest) st = pageLoop auth resp rest st2 := by
        simp [pageLoop, hit]
      rw [hloop] at hc ⊢
      have ht2 : st2.token ≠ "" := by rw [hspec.1]; exact ht
      have hih := ih st2 ht2 hc
      refine ⟨by rw [hih.1, hspec.1], fun h => ?_, fun h => hih.2.2 (hspec.2.2.2 h)⟩
      exact hih.2.1 (by omega)
    · exact absurd ((pageIter_spec auth resp p st).2 st2 hit).1 ht
    · have : (pageLoop auth resp (p :: rest) st).2 = true := by
        simp [pageLoop, hit]
      rw [this] at hc
      cases hc

theorem runFromFirstPage_spec (auth : Nat → Option String)
    (resp : Nat → Bool × PyValue) (token : String) (pg : Page) (s : Summary)
    (ht : token ≠ "")
    (h : (runFromFirstPage auth resp token pg).result = RunResult.complete s) :
    s.pages_requested = s.successful_pages + s.failed_pages ∧
    s.records_ingested = (runFromFirstPage auth resp token pg).rows.length ∧
    (runFromFirstPage auth resp token pg).rows =
      ((runFromFirstPage auth resp token pg).successPayloads.map
        (fun q => q.data.map toRow)).flatten := by
  unfold runFromFirstPage at h ⊢
  rcases hpr : pageLoop auth resp (List.range' 2 (pg.metadata.total_pages - 1))
      (initState token pg) with ⟨stf, crashed⟩
  rw [hpr] at h
  cases crashed
  · have hspec := pageLoop_spec auth resp
      (List.range' 2 (pg.metadata.total_pages - 1)) (initState token pg)
      (by simpa [initState] using ht) (by rw [hpr])
    rw [hpr] at hspec
    simp only [mkTrace] at h ⊢
    have hs : s = ⟨stf.page_requested, stf.successful_pages, stf.failed_pages,
        stf.records_ingested⟩ := by
      cases h
      rfl
    subst hs
    have hcounts := hspec.2.1 (by simp [initState])
    have hinv := hspec.2.2 (by simp [RowsInv, initState])
    exact ⟨hcounts, hinv.2, hinv.1⟩
  · simp [mkTrace] at h

theorem pyTruthy_tokenStr (t : Option String) (h : ¬ pyTruthy t = false) :
    tokenStr t ≠ "" := by
  cases t with
  | none => simp [pyTruthy] at h
  | some s =>
    simp only [pyTruthy, bne_eq_false_iff_eq] at h
    simpa [tokenStr] using h

theorem complete_via_firstPage (auth : Nat → Option String)
    (resp : Nat → Bool × PyValue) (s : Summary)
    (h : (write_customers_to_csv auth resp).result = RunResult.complete s) :
    ∃ pg, write_customers_to_csv auth resp =
        runFromFirstPage auth resp (tokenStr (auth 0)) pg ∧
      tokenStr (auth 0) ≠ "" := by
  unfold write_customers_to_csv at h ⊢
  by_cases h0 : pyTruthy (auth 0) = false
  · simp [h0] at h
  · by_cases h1 : (resp 0).1 = false
    · simp [h0, h1] at h
    · rcases hd : (resp 0).2 with pg | s1 | _
      · exact ⟨pg, by simp [h0, h1, hd], pyTruthy_tokenStr (auth 0) h0⟩
      · simp [h0, h1, hd] at h
      · simp [h0, h1, hd] at h

/-- Claim C1.  The claim states that after a TokenExpired outcome the
driver's token binding is replaced wholesale by the refreshed token and the
retry of the same page is performed with the new token.  The code instead
evaluates `token + get_new_token()` (a concatenation whose value is
discarded) in place of an assignment, so the binding is unchanged and the
retry carries the stale token: in a run where the initial login yields
"T1", page 2 reports an expired token and the refresh call yields "T2",
all three fetch calls — including the retry of page 2 — carry "T1". -/
theorem c1_retry_uses_stale_token :
    (write_customers_to_csv authT12 respExp).fetchCalls =
      [(1, "T1"), (2, "T1"), (2, "T1")] ∧
    authT12 1 = some "T2" ∧
    (write_customers_to_csv authT12 respExp).authCalls = 2 := by
  decide

/-- Claim C2.  The claim states that when re-authentication after
TokenExpired fails, the run transitions to the Aborted terminal state
rather than crashing with an unhandled exception.  Because the code
evaluates `token + get_new_token()`, a failed refresh (None) makes the
string concatenation raise TypeError, which is unhandled: the run crashes
instead of aborting cleanly. -/
theorem c2_refresh_failure_crashes :
    (write_customers_to_csv authNoRefresh respExp).result = RunResult.crashed ∧
    authNoRefresh 1 = Option.none := by
  decide

/-- Claim C3, amended.  An unclassified exception makes fetch_customer_data
return immediately — one request, no sleep, no retry, attempt counter
untouched — but the value returned is (False, None), the very value the
exhausted path returns, so the caller cannot distinguish the two
outcomes. -/
theorem c3_fatal_immediate_same_value (pn : Nat) (tok : String)
    (ev : Nat → HttpEvent) (m : Int) (fuel : Nat)
    (h0 : ev 0 = HttpEvent.exception) (hm : 0 < m) :
    fetch_customer_data pn tok ev m (fuel + 1) =
      ⟨some (false, PyValue.none), [], 1, 0⟩ ∧
    (fetch_customer_data pn tok ev m (fuel + 1)).result =
      (fetch_customer_data 1 "t" ev429c 1 2).result := by
  have heq : fetch_customer_data pn tok ev m (fuel + 1) =
      ⟨some (false, PyValue.none), [], 1, 0⟩ := by
    simp [fetch_customer_data, fetchGo, h0, hm]
  exact ⟨heq, by rw [heq]; rfl⟩

/-- Claim C3 witness: a concrete run hitting an exception on its first
request returns (False, None) at once, and that value coincides with the
result of a run that exhausts its retries on 429 responses. -/
theorem c3_fatal_witness :
    fetch_customer_data 1 "t" evExcC 5 1 =
      ⟨some (false, PyValue.none), [], 1, 0⟩ ∧
    (fetch_customer_data 1 "t" evExcC 5 1).result =
      (fetch_customer_data 1 "t" ev429c 1 2).result :=
  c3_fatal_immediate_same_value 1 "t" evExcC 5 0 rfl (by decide)

/-- Claim C3 counterexample: the claim asserts FatalError is
distinguishable by the caller from Exhausted, but a fatal run (exception on
the first request) and an exhausted run (429 with maxRetries 1) return the
same Python value (False, None). -/
theorem c3_counterexample :
    (fetch_customer_data 1 "t" evExcC 5 1).result =
      (fetch_customer_data 1 "t" ev429c 1 2).result ∧
    fetch_customer_data 1 "t" evExcC 5 1 =
      ⟨some (false, PyValue.none), [], 1, 0⟩ ∧
    fetch_customer_data 1 "t" ev429c 1 2 =
      ⟨some (false, PyValue.none), [2], 1, 1⟩ := by
  decide

/-- Claim C4, amended to maxRetries ≥ 1.  When every request is answered
with a status outside {200, 429, 500, 503, 403} and the loop is entered at
all (maxRetries ≥ 1), the attempt counter is never incremented and no sleep
occurs, so for every amount of fuel the loop is still running: the function
never returns. -/
theorem c4_unrecognized_never_returns (pn : Nat) (tok : String)
    (ev : Nat → HttpEvent) (m : Int)
    (h : ∀ j, ∃ c b, ev j = HttpEvent.status c b ∧
      c ≠ 200 ∧ c ≠ 429 ∧ c ≠ 500 ∧ c ≠ 503 ∧ c ≠ 403)
    (hm : 1 ≤ m) (fuel : Nat) :
    fetch_customer_data pn tok ev m fuel = ⟨Option.none, [], fuel, 0⟩ := by
  have hc : ((0 : Nat) : Int) < m := by push_cast; omega
  exact fetchGo_unrecognized ev m h fuel 0 0 hc

/-- Claim C4 witness: with every request answered 418 and maxRetries 5, the
loop has returned nothing after three iterations, made three requests,
slept zero times and still has attempt = 0. -/
theorem c4_witness :
    fetch_customer_data 1 "t" ev418c 5 3 = ⟨Option.none, [], 3, 0⟩ :=
  c4_unrecognized_never_returns 1 "t" ev418c 5
    (fun j => ⟨418, pg1, rfl, by decide, by decide, by decide, by decide,
      by decide⟩) (by decide) 3

/-- Claim C4 counterexample: the claim quantifies over every maxRetries
bound, but with maxRetries = 0 the while-loop body is never entered and
fetch_customer_data does return — immediately, with (False, None) — even
though every request would be answered with the unrecognized status 418. -/
theorem c4_counterexample :
    fetch_customer_data 1 "t" ev418c 0 1 =
      ⟨some (false, PyValue.none), [], 0, 0⟩ ∧
    (fetch_customer_data 1 "t" ev418c 0 1).result.isSome = true := by
  decide

/-- Claim C5.  Whenever a run of write_customers_to_csv returns a summary
dict, pages_requested equals successful_pages plus failed_pages, for every
authentication oracle and every sequence of per-page fetch outcomes. -/
theorem c5_summary_invariant (auth : Nat → Option String)
    (resp : Nat → Bool × PyValue) (s : Summary)
    (h : (write_customers_to_csv auth resp).result = RunResult.complete s) :
    s.pages_requested = s.successful_pages + s.failed_pages := by
  obtain ⟨pg, hw, ht⟩ := complete_via_firstPage auth resp s h
  rw [hw] at h
  exact (runFromFirstPage_spec auth resp (tokenStr (auth 0)) pg s ht h).1

/-- Claim C5 witness: a concrete completed run (two pages, the second
retried once after token expiry) has summary 2 = 2 + 0. -/
theorem c5_witness :
    (write_customers_to_csv authT12 respExp).result =
      RunResult.complete ⟨2, 2, 0, 2⟩ ∧
    (⟨2, 2, 0, 2⟩ : Summary).pages_requested =
      (⟨2, 2, 0, 2⟩ : Summary).successful_pages +
        (⟨2, 2, 0, 2⟩ : Summary).failed_pages :=
  ⟨by decide, c5_summary_invariant authT12 respExp ⟨2, 2, 0, 2⟩ (by decide)⟩

/-- Claim C6.  At completion, records_ingested equals the sum of the record
counts of exactly the pages credited as successful at emission time, and
the rows handed to the writer are exactly those pages' records mapped to
rows, in order, each exactly once — in particular a page fetched again
after a TokenExpired outcome contributes its records once. -/
theorem c6_records_exactly_once (auth : Nat → Option String)
    (resp : Nat → Bool × PyValue) (s : Summary)
    (h : (write_customers_to_csv auth resp).result = RunResult.complete s) :
    s.records_ingested =
      ((write_customers_to_csv auth resp).successPayloads.map
        (fun q => q.data.length)).sum ∧
    (write_customers_to_csv auth resp).rows =
      ((write_customers_to_csv auth resp).successPayloads.map
        (fun q => q.data.map toRow)).flatten := by
  obtain ⟨pg, hw, ht⟩ := complete_via_firstPage auth resp s h
  rw [hw] at h ⊢
  obtain ⟨-, hlen, hrows⟩ :=
    runFromFirstPage_spec auth resp (tokenStr (auth 0)) pg s ht h
  refine ⟨?_, hrows⟩
  rw [hlen, hrows, List.length_flatten, List.map_map]
  simp only [Function.comp_def, List.length_map]

/-- Claim C6 witness: in the concrete run where page 2 reports an expired
token and its single retry succeeds with record B, records A and B are each
emitted exactly once and records_ingested = 2. -/
theorem c6_witness :
    (write_customers_to_csv authT12 respExp).result =
      RunResult.complete ⟨2, 2, 0, 2⟩ ∧
    ((⟨2, 2, 0, 2⟩ : Summary).records_ingested =
      ((write_customers_to_csv authT12 respExp).successPayloads.map
        (fun q => q.data.length)).sum ∧
    (write_customers_to_csv authT12 respExp).rows =
      ((write_customers_to_csv authT12 respExp).successPayloads.map
        (fun q => q.data.map toRow)).flatten) :=
  ⟨by decide, c6_records_exactly_once authT12 respExp ⟨2, 2, 0, 2⟩ (by decide)⟩

/-- Claim C7.  For every maxRetries = R, a fetch whose every request is
answered 429 sleeps exactly R times, for 2^0 + 1, 2^1 + 1, ...,
2^(R-1) + 1 seconds in that order, and then returns the exhausted value
(False, None). -/
theorem c7_rate_limit_backoff (pn : Nat) (tok : String) (ev : Nat → HttpEvent)
    (R : Nat) (h : ∀ j, ∃ b, ev j = HttpEvent.status 429 b)
    (fuel : Nat) (hf : R < fuel) :
    fetch_customer_data pn tok ev (R : Int) fuel =
      ⟨some (false, PyValue.none),
       (List.range R).map (fun a => 2 ^ a + 1), R, R⟩ := by
  unfold fetch_customer_data
  have hgo := fetchGo_429 ev R h fuel 0 0 (Nat.zero_le R) (by omega)
  simpa [List.range_eq_range'] using hgo

/-- Claim C7 witness: with maxRetries = 3 and every request answered 429,
the run sleeps 2, 3, 5 seconds and returns (False, None). -/
theorem c7_witness :
    fetch_customer_data 1 "t" ev429c ((3 : Nat) : Int) 4 =
      ⟨some (false, PyValue.none), [2, 3, 5], 3, 3⟩ :=
  (c7_rate_limit_backoff 1 "t" ev429c 3 (fun j => ⟨pg1, rfl⟩) 4 (by decide)).trans
    (by decide)

/-- Claim C8.  A fetch whose first request is answered 403 returns
(False, "TOKEN_EXPIRED") immediately: one request, zero sleeps, attempt
counter still 0 — no retry consumed. -/
theorem c8_forbidden_immediate (pn : Nat) (tok : String) (ev : Nat → HttpEvent)
    (m : Int) (b : Page) (fuel : Nat)
    (h0 : ev 0 = HttpEvent.status 403 b) (hm : 0 < m) :
    fetch_customer_data pn tok ev m (fuel + 1) =
      ⟨some (false, PyValue.str "TOKEN_EXPIRED"), [], 1, 0⟩ := by
  simp [fetch_customer_data, fetchGo, h0, hm]

/-- Claim C8 witness: a concrete 403 on the first request returns the
token-expired value with no sleeps and attempt counter 0. -/
theorem c8_witness :
    fetch_customer_data 7 "tok" ev403c 5 1 =
      ⟨some (false, PyValue.str "TOKEN_EXPIRED"), [], 1, 0⟩ :=
  c8_forbidden_immediate 7 "tok" ev403c 5 pg1 0 rfl (by decide)

/-- Claim C9.  If the initial authentication yields no token, the run
returns None (the well-defined "no run" signal): no fetch call is made, no
row is written, and exactly one authentication call was attempted. -/
theorem c9_auth_failure_no_run (auth : Nat → Option String)
    (resp : Nat → Bool × PyValue) (h : auth 0 = Option.none) :
    write_customers_to_csv auth resp = ⟨RunResult.noRun, 1, [], [], []⟩ := by
  simp [write_customers_to_csv, h, pyTruthy]

/-- Claim C9 witness: the always-failing authenticator yields the no-run
trace. -/
theorem c9_witness :
    write_customers_to_csv authNone respExp = ⟨RunResult.noRun, 1, [], [], []⟩ :=
  c9_auth_failure_no_run authNone respExp rfl

/-- Claim C10.  For every page number and token, calling fetch_customer_data
with maxRetries ≤ 0 returns (False, None) at once: the loop body is never
entered, so no HTTP request is made, no sleep occurs and the attempt
counter stays 0. -/
theorem c10_nonpositive_retries (pn : Nat) (tok : String) (ev : Nat → HttpEvent)
    (m : Int) (hm : m ≤ 0) (fuel : Nat) :
    fetch_customer_data pn tok ev m (fuel + 1) =
      ⟨some (false, PyValue.none), [], 0, 0⟩ := by
  have hc : ¬ ((0 : Int) < m) := by omega
  simp [fetch_customer_data, fetchGo, hc]

/-- Claim C10 witness: maxRetries = 0 returns (False, None) with zero
requests and zero sleeps even though the server would answer 403. -/
theorem c10_witness :
    fetch_customer_data 4 "tk" ev403c 0 1 =
      ⟨some (false, PyValue.none), [], 0, 0⟩ :=
  c10_nonpositive_retries 4 "tk" ev403c 0 (by decide) 0
